import Mathlib

/-!
Verification development for the database-entry model and ingestion pipeline
of `sunpy/database/tables.py`.

The Python module is shallowly embedded: each class becomes a structure, each
method a Lean function.  Python `None` becomes `Option.none`; Python floats
(wavelengths, sizes) are modelled as exact rationals `ℚ`; fallible methods
(those that `raise`) return `Except`.  Methods that mutate `self` and may
raise mid-way return the partially mutated object inside the error, mirroring
the state the Python object is left in when the exception escapes.

External collaborators (astropy units, `sunpy.io.fits`, `sunpy.io.file_tools`,
`sunpy.time.parse_time`, `os.walk`, `fnmatch`) are modelled at the interface
boundary; each such model is marked in its doc comment.
-/

/-- A FITS header value: Python header values are numbers, strings or
booleans (`tables.py` stores them untyped). -/
inductive HVal where
  | num (q : ℚ)
  | str (s : String)
  | bool (b : Bool)
deriving DecidableEq

/-- Model of Python `str(value)` on a header value (numeric rendering is the
rational `toString`, an abstraction of CPython float formatting). -/
def strOfHVal : HVal → String
  | HVal.num q => toString q
  | HVal.str s => s
  | HVal.bool b => if b then "True" else "False"

/-- Python truthiness of a header value (`0`, `""`, `False` are falsy). -/
def hvalFalsy : HVal → Bool
  | HVal.num q => decide (q = 0)
  | HVal.str s => decide (s = "")
  | HVal.bool b => !b

/-- `FitsHeaderEntry` from `tables.py`: a `(key, value)` pair with an optional
database id (`None` until persisted). -/
structure FitsHeaderEntry where
  id : Option Int
  key : String
  value : HVal
deriving DecidableEq

/-- `Tag` from `tables.py`: a named label, identity is the name. -/
structure Tag where
  name : String
deriving DecidableEq

/-- A parsed datetime.  The external time stack (`strptime`, `parse_time`)
is abstracted: a datetime is represented by the source string it was parsed
from, which is an injective image of the external parse. -/
def DT := String
deriving DecidableEq

/-- `DatabaseEntry` from `tables.py` (the `data` table).  All columns are
nullable in memory; `starred` has a database-side default but is `None` on a
fresh in-memory instance; `instrument` may hold a raw header value. -/
structure DatabaseEntry where
  id : Option Int
  source : Option String
  provider : Option String
  physobs : Option String
  fileid : Option String
  observation_time_start : Option DT
  observation_time_end : Option DT
  instrument : Option HVal
  size : Option ℚ
  wavemin : Option ℚ
  wavemax : Option ℚ
  path : Option String
  download_time : Option DT
  starred : Option Bool
  fits_header_entries : List FitsHeaderEntry
  tags : List Tag
deriving DecidableEq

/-- `DatabaseEntry()`: a freshly constructed, empty entry. -/
def emptyEntry : DatabaseEntry :=
  { id := none, source := none, provider := none, physobs := none,
    fileid := none, observation_time_start := none,
    observation_time_end := none, instrument := none, size := none,
    wavemin := none, wavemax := none, path := none, download_time := none,
    starred := none, fits_header_entries := [], tags := [] }

/-- Python 2 `round(q, 10)`: round to the nearest multiple of `10⁻¹⁰`, ties
away from zero (modelled on exact rationals). -/
def pyround10 (q : ℚ) : ℚ :=
  if 0 ≤ q then ((⌊q * 10 ^ 10 + 1 / 2⌋ : ℤ) : ℚ) / 10 ^ 10
  else -(((⌊-q * 10 ^ 10 + 1 / 2⌋ : ℤ) : ℚ) / 10 ^ 10)

/-- The `wavemins_equal` / `wavemaxs_equal` subexpression of
`DatabaseEntry.__eq__`: both `None`, or both set and equal after rounding to
10 decimal digits. -/
def waveEq : Option ℚ → Option ℚ → Bool
  | none, none => true
  | some a, some b => decide (pyround10 a = pyround10 b)
  | _, _ => false

/-- Python `bool(x)` on an optional boolean column (`bool(None) = False`). -/
def boolCoerce (o : Option Bool) : Bool := o.getD false

/-- `FitsHeaderEntry.__eq__`: ids match or either id is unset (wildcard), and
key and value match. -/
def fhEq (x y : FitsHeaderEntry) : Bool :=
  (decide (x.id = y.id) || decide (x.id = none) || decide (y.id = none)) &&
  decide (x.key = y.key) && decide (x.value = y.value)

/-- `Tag.__eq__`: equality by name. -/
def tagEq (x y : Tag) : Bool := decide (x.name = y.name)

/-- Python list equality: same length, elementwise equal under `r`. -/
def listEqBy (r : α → α → Bool) : List α → List α → Bool
  | [], [] => true
  | x :: xs, y :: ys => r x y && listEqBy r xs ys
  | _, _ => false

/-- `DatabaseEntry.__eq__` from `tables.py`: id wildcard, scalar fields,
rounded wavelengths, boolean-coerced `starred`, elementwise header entries
and tags. -/
def entryEq (a b : DatabaseEntry) : Bool :=
  (decide (a.id = b.id) || decide (a.id = none) || decide (b.id = none)) &&
  decide (a.source = b.source) &&
  decide (a.provider = b.provider) &&
  decide (a.physobs = b.physobs) &&
  decide (a.fileid = b.fileid) &&
  decide (a.observation_time_start = b.observation_time_start) &&
  decide (a.observation_time_end = b.observation_time_end) &&
  decide (a.instrument = b.instrument) &&
  decide (a.size = b.size) &&
  waveEq a.wavemin b.wavemin &&
  waveEq a.wavemax b.wavemax &&
  decide (a.path = b.path) &&
  decide (a.download_time = b.download_time) &&
  decide (boolCoerce a.starred = boolCoerce b.starred) &&
  listEqBy fhEq a.fits_header_entries b.fits_header_entries &&
  listEqBy tagEq a.tags b.tags

/-- The error values this module can raise.  `waveunitNotFound` and
`waveunitNotConvertible` are the module's own exception classes;
`valueErr` models an uncaught `ValueError` escaping from the external unit
resolver; `typeErr` models the `TypeError`s raised by `display_entries`;
`attrErr` models `AttributeError` from `getattr` on an unknown column. -/
inductive DBErr where
  | waveunitNotFound (obj : String)
  | waveunitNotConvertible (waveunit : String)
  | valueErr (msg : String)
  | typeErr (msg : String)
  | attrErr (attr : String)
deriving DecidableEq

/-- Model of the external unit resolver `astropy.units.Unit`: a label either
resolves to a linear conversion factor to nanometres, or fails (Python: it
raises `ValueError`, here: `none`).  Restricted to common length-unit
labels; an unrecognized label is unresolvable. -/
def resolveUnit : String → Option ℚ
  | "Angstrom" => some (1 / 10)
  | "angstrom" => some (1 / 10)
  | "nm" => some 1
  | "um" => some 1000
  | "micron" => some 1000
  | "mm" => some (10 ^ 6)
  | "m" => some (10 ^ 9)
  | _ => none

/-- `unit.to(nm, value, equivalencies.spectral())` for a resolved length
unit with factor `f` to nanometres. -/
def unitToNm (f : ℚ) (q : ℚ) : ℚ := f * q

/-- Modelled from the spec: `sunpy.io.fits.extract_waveunit` (repository code
not under `src/`), the external waveunit-extraction capability keyed on
conventional FITS keywords; modelled as reading the `WAVEUNIT` keyword when
present with a string value. -/
def extractWaveunit (header : List (String × HVal)) : Option String :=
  match header.find? (fun kv => kv.1 == "WAVEUNIT") with
  | some (_, HVal.str s) => some s
  | _ => none

/-- Modelled from the spec: `sunpy.time.parse_time` (repository code not
under `src/`), the external flexible time parser; modelled as the injection
of the source value into the abstract datetime type. -/
def parseTime (v : HVal) : DT := strOfHVal v

/-- The `KEYCOMMENTS` / empty-key special case of
`add_fits_header_entries_from_file`: those values are coerced to strings. -/
def coerceHeaderValue (key : String) (v : HVal) : HVal :=
  if key = "KEYCOMMENTS" ∨ key = "" then HVal.str (strOfHVal v) else v

/-- One `FitsHeaderEntry(key, value)` appended per header pair. -/
def mkFH (kv : String × HVal) : FitsHeaderEntry :=
  { id := none, key := kv.1, value := coerceHeaderValue kv.1 kv.2 }

/-- The effective waveunit label: the extracted one, else the default.
(`waveunit = fits.extract_waveunit(header); if waveunit is None: ...
waveunit = default_waveunit`). -/
def effWaveunit (header : List (String × HVal)) (dw : Option String) :
    Option String :=
  match extractWaveunit header with
  | some w => some w
  | none => dw

/-- One iteration of the re-scan loop of
`add_fits_header_entries_from_file`: populate `instrument`, `wavemin` /
`wavemax` (converted to nm with factor `f`) or an observation time bound
when the key is recognized.  A non-numeric `WAVELNTH` value makes the
external converter raise (modelled `typeErr`). -/
def scanStep (f : ℚ) (e : DatabaseEntry) (he : FitsHeaderEntry) :
    Except (DBErr × DatabaseEntry) DatabaseEntry :=
  if he.key = "INSTRUME" then
    Except.ok { e with instrument := some he.value }
  else if he.key = "WAVELNTH" then
    match he.value with
    | HVal.num q =>
      Except.ok { e with wavemin := some (unitToNm f q),
                         wavemax := some (unitToNm f q) }
    | _ => Except.error (DBErr.typeErr "WAVELNTH value not numeric", e)
  else if he.key = "DATE-END" ∨ he.key = "DATE_END" then
    Except.ok { e with observation_time_end := some (parseTime he.value) }
  else if he.key = "DATE-OBS" ∨ he.key = "DATE_OBS" then
    Except.ok { e with observation_time_start := some (parseTime he.value) }
  else Except.ok e

/-- The whole re-scan loop: fold `scanStep` over the header entries,
propagating a raised exception. -/
def scanEntries (f : ℚ) :
    DatabaseEntry → List FitsHeaderEntry →
    Except (DBErr × DatabaseEntry) DatabaseEntry
  | e, [] => Except.ok e
  | e, he :: rest =>
    match scanStep f e he with
    | Except.error err => Except.error err
    | Except.ok e2 => scanEntries f e2 rest

/-- `DatabaseEntry.add_fits_header_entries_from_file(self, path, default)`.
The decoded first header block (external `fits.get_header(path)[0]`) is
passed directly as `header`; `src` is the file path used in the
`WaveunitNotFoundError` payload.  On failure the error carries the
partially mutated entry (header entries already appended), as the Python
object is left on exception. -/
def addFitsHeaderEntries (e0 : DatabaseEntry) (src : String)
    (header : List (String × HVal)) (dw : Option String) :
    Except (DBErr × DatabaseEntry) DatabaseEntry :=
  let e1 := { e0 with
    fits_header_entries := e0.fits_header_entries ++ header.map mkFH }
  match effWaveunit header dw with
  | none => Except.error (DBErr.waveunitNotFound src, e1)
  | some w =>
    match resolveUnit w with
    | none => Except.error (DBErr.waveunitNotConvertible w, e1)
    | some f => scanEntries f e1 e1.fits_header_entries

/-- `DatabaseEntry.from_fits_filepath`: build a fresh entry from a file. -/
def fromFitsFilepath (src : String) (header : List (String × HVal))
    (dw : Option String) : Except (DBErr × DatabaseEntry) DatabaseEntry :=
  addFitsHeaderEntries emptyEntry src header dw

/-- `timestamp2datetime` from `tables.py`: parses a fixed-format timestamp
string via the external `strptime` / `mktime` stack, abstracted as the
injection of the string into `DT`. -/
def timestamp2datetime (_fmtStr : String) (s : String) : DT := s

/-- The `wave` attribute of a VSO query result block. -/
structure WaveInfo where
  waveunit : Option String
  wavemin : Option ℚ
  wavemax : Option ℚ

/-- A VSO query result block (`suds.sudsobject.QueryResponseBlock`), reduced
to the attributes `from_query_result_block` reads.  `physobs` is optional at
the attribute level (`getattr(qr_block, 'physobs', None)`). -/
structure QueryResultBlock where
  time_start : String
  time_end : String
  wave : WaveInfo
  source : Option String
  provider : Option String
  fileid : Option String
  instrument : Option String
  physobs : Option String
  size : Option ℚ

/-- The diagnostic rendering of a block for the `WaveunitNotFoundError`
payload (the Python exception carries the block object itself; here a string
descriptor). -/
def describeBlock (blk : QueryResultBlock) : String := blk.fileid.getD ""

/-- The waveunit label used by `from_query_result_block`: `wave.waveunit`,
else the supplied default. -/
def effWaveunitQR (blk : QueryResultBlock) (dw : Option String) :
    Option String :=
  match blk.wave.waveunit with
  | some w => some w
  | none => dw

/-- `DatabaseEntry.from_query_result_block`.  Times are parsed first, the
unit is resolved next (an unresolvable label raises the resolver's raw
`ValueError` — there is no try/except here), and only then are `wavemin` /
`wavemax` converted, each independently and only when set. -/
def fromQueryResultBlock (blk : QueryResultBlock) (dw : Option String) :
    Except DBErr DatabaseEntry :=
  let time_start := timestamp2datetime "%Y%m%d%H%M%S" blk.time_start
  let time_end := timestamp2datetime "%Y%m%d%H%M%S" blk.time_end
  match effWaveunitQR blk dw with
  | none => Except.error (DBErr.waveunitNotFound (describeBlock blk))
  | some label =>
    match resolveUnit label with
    | none => Except.error (DBErr.valueErr label)
    | some f =>
      Except.ok { emptyEntry with
        source := blk.source,
        provider := blk.provider,
        physobs := blk.physobs,
        fileid := blk.fileid,
        observation_time_start := some time_start,
        observation_time_end := some time_end,
        instrument := blk.instrument.map HVal.str,
        size := blk.size,
        wavemin := blk.wave.wavemin.map (unitToNm f),
        wavemax := blk.wave.wavemax.map (unitToNm f) }

/-- `TypeError('at least one column must be given')` — the Display
Formatter's empty-columns validation failure. -/
def emptyColumnsError : DBErr := DBErr.typeErr "at least one column must be given"

/-- `TypeError('given iterable is empty')` — the Display Formatter's
empty-entries validation failure. -/
def emptyEntriesError : DBErr := DBErr.typeErr "given iterable is empty"

/-- A single-quote character, for Python `repr` renderings. -/
def pySQ : String := String.singleton (Char.ofNat 39)

/-- Python `repr` of a header value (string values quoted). -/
def reprHVal : HVal → String
  | HVal.num q => toString q
  | HVal.str s => pySQ ++ s ++ pySQ
  | HVal.bool b => if b then "True" else "False"

/-- `FitsHeaderEntry.__repr__`. -/
def reprFH (fh : FitsHeaderEntry) : String :=
  "<FitsHeaderEntry(id " ++
    (match fh.id with | none => "None" | some n => toString n) ++
    ", key " ++ pySQ ++ fh.key ++ pySQ ++ ", value " ++ reprHVal fh.value ++ ")>"

/-- Python `repr` of a list of header entries. -/
def reprFHList (l : List FitsHeaderEntry) : String :=
  "[" ++ String.intercalate ", " (l.map reprFH) ++ "]"

/-- `str(value or 'N/A')` for an optional string column. -/
def renderOptStr : Option String → String
  | none => "N/A"
  | some s => if s = "" then "N/A" else s

/-- `str(value or 'N/A')` for an optional numeric column. -/
def renderOptRat : Option ℚ → String
  | none => "N/A"
  | some q => if q = 0 then "N/A" else toString q

/-- One cell of `display_entries`: `starred` renders Yes/No, `tags` renders
the comma-joined names or N/A, any other known column renders
`str(getattr(entry, col) or 'N/A')`; an unknown column raises
`AttributeError` from `getattr`. -/
def renderCell (e : DatabaseEntry) (col : String) : Except DBErr String :=
  if col = "starred" then
    Except.ok (if boolCoerce e.starred then "Yes" else "No")
  else if col = "tags" then
    Except.ok
      (let s := String.intercalate ", " (e.tags.map Tag.name);
       if s = "" then "N/A" else s)
  else if col = "id" then
    Except.ok (match e.id with
      | none => "N/A"
      | some n => if n = 0 then "N/A" else toString n)
  else if col = "source" then Except.ok (renderOptStr e.source)
  else if col = "provider" then Except.ok (renderOptStr e.provider)
  else if col = "physobs" then Except.ok (renderOptStr e.physobs)
  else if col = "fileid" then Except.ok (renderOptStr e.fileid)
  else if col = "observation_time_start" then
    Except.ok (renderOptStr e.observation_time_start)
  else if col = "observation_time_end" then
    Except.ok (renderOptStr e.observation_time_end)
  else if col = "instrument" then
    Except.ok (match e.instrument with
      | none => "N/A"
      | some v => if hvalFalsy v then "N/A" else strOfHVal v)
  else if col = "size" then Except.ok (renderOptRat e.size)
  else if col = "wavemin" then Except.ok (renderOptRat e.wavemin)
  else if col = "wavemax" then Except.ok (renderOptRat e.wavemax)
  else if col = "path" then Except.ok (renderOptStr e.path)
  else if col = "download_time" then Except.ok (renderOptStr e.download_time)
  else if col = "fits_header_entries" then
    Except.ok (if e.fits_header_entries.isEmpty then "N/A"
               else reprFHList e.fits_header_entries)
  else Except.error (DBErr.attrErr col)

/-- The row-building loop of `display_entries`: one row per entry; an empty
row (empty `columns`) raises the empty-columns `TypeError` at the first
entry. -/
def buildRows (columns : List String) :
    List DatabaseEntry → Except DBErr (List (List String))
  | [] => Except.ok []
  | e :: rest =>
    match columns.mapM (renderCell e) with
    | Except.error err => Except.error err
    | Except.ok row =>
      if row.isEmpty then Except.error emptyColumnsError
      else
        match buildRows columns rest with
        | Except.error err => Except.error err
        | Except.ok rows => Except.ok (row :: rows)

/-- `display_entries` from `tables.py`, up to the external pretty-printer
boundary: the result is the list of rows handed to `print_table`
(header row, ruler row, data rows). -/
def display_entries (entries : List DatabaseEntry) (columns : List String) :
    Except DBErr (List (List String)) :=
  let header := [columns]
  let rulers := [columns.map (fun c => String.mk (List.replicate c.length (Char.ofNat 45)))]
  match buildRows columns entries with
  | Except.error err => Except.error err
  | Except.ok data =>
    if data.isEmpty then Except.error emptyEntriesError
    else Except.ok (header ++ rulers ++ data)

/-- Modelled from the spec: the outcome of the external file-type classifier
`sunpy.io.file_tools._detect_filetype` (repository code not under `src/`) on
one file: the FITS type tag, some other type tag, or one of its two failure
signals (`UnrecognizedFileTypeError`, `InvalidJPEG2000FileExtension`). -/
inductive DetectResult where
  | fits
  | otherType
  | unrecognized
  | invalidJP2
deriving DecidableEq

/-- A file on disk as the directory scan sees it: its name, what the
external classifier says about it, and its decoded first FITS header
block. -/
structure FileDesc where
  name : String
  detect : DetectResult
  header : List (String × HVal)
deriving DecidableEq

/-- A directory tree: files at this level plus named subdirectories. -/
inductive FSDir where
  | node (files : List FileDesc) (subdirs : List (String × FSDir))

/-- `os.path.join`. -/
def pathJoin (a b : String) : String := a ++ "/" ++ b

/-- The files at the top level of a directory. -/
def topFiles : FSDir → List FileDesc
  | FSDir.node files _ => files

mutual
/-- Model of `os.walk` (top-down): yields `(dirpath, filenames)` for the
root first, then each subtree depth-first. -/
def walkFS (root : String) : FSDir → List (String × List FileDesc)
  | FSDir.node files subs => (root, files) :: walkSubs root subs

/-- `os.walk` over a list of named subdirectories. -/
def walkSubs (root : String) : List (String × FSDir) → List (String × List FileDesc)
  | [] => []
  | (nm, d) :: rest => walkFS (pathJoin root nm) d ++ walkSubs root rest
end

/-- The per-file body of the `entries_from_dir` loop: classifier failures
are swallowed (`continue`), files classified FITS yield
`(from_fits_filepath(path), path)`, other types are skipped. -/
def processFiles (dw : Option String) :
    List (String × FileDesc) →
    Except (DBErr × DatabaseEntry) (List (DatabaseEntry × String))
  | [] => Except.ok []
  | (path, f) :: rest =>
    match f.detect with
    | DetectResult.unrecognized => processFiles dw rest
    | DetectResult.invalidJP2 => processFiles dw rest
    | DetectResult.otherType => processFiles dw rest
    | DetectResult.fits =>
      match fromFitsFilepath path f.header dw with
      | Except.error err => Except.error err
      | Except.ok entry =>
        match processFiles dw rest with
        | Except.error err => Except.error err
        | Except.ok more => Except.ok ((entry, path) :: more)

/-- One `os.walk` triple of `entries_from_dir`: join paths, filter by the
glob pattern (external `fnmatch.filter`, modelled as the predicate `m` on
full paths), then process each candidate file. -/
def processTriples (m : String → Bool) (dw : Option String) :
    List (String × List FileDesc) →
    Except (DBErr × DatabaseEntry) (List (DatabaseEntry × String))
  | [] => Except.ok []
  | (dirpath, files) :: rest =>
    let candidates :=
      (files.map (fun f => (pathJoin dirpath f.name, f))).filter (fun p => m p.1)
    match processFiles dw candidates with
    | Except.error err => Except.error err
    | Except.ok pairs =>
      match processTriples m dw rest with
      | Except.error err => Except.error err
      | Except.ok more => Except.ok (pairs ++ more)

/-- `entries_from_dir` from `tables.py`: walk the tree (`if not recursive:
break` keeps only the first `os.walk` triple, i.e. the top level) and yield
`(entry, path)` pairs for the FITS files. -/
def entriesFromDir (root : String) (d : FSDir) (recursive : Bool)
    (m : String → Bool) (dw : Option String) :
    Except (DBErr × DatabaseEntry) (List (DatabaseEntry × String)) :=
  processTriples m dw
    (if recursive then walkFS root d else (walkFS root d).take 1)

/-- Whether the classifier outcome lets a file reach the FITS branch of the
loop. -/
def keptByClassifier (f : FileDesc) : Bool :=
  match f.detect with
  | DetectResult.fits => true
  | _ => false

/-- A FITS file fixture whose header carries a readable waveunit, so that
ingesting it succeeds. -/
def fitsFile (nm : String) : FileDesc :=
  { name := nm, detect := DetectResult.fits,
    header := [("SIMPLE", HVal.bool true), ("WAVEUNIT", HVal.str "nm")] }

/-- A directory with one FITS file at the top level and one in a
subdirectory. -/
def c8SampleDir : FSDir :=
  FSDir.node [fitsFile "image1.fits"]
    [("sub", FSDir.node [fitsFile "image2.fits"] [])]

/-- A single-level directory of mixed file types: one FITS file, one file
the classifier cannot recognize, one with an invalid JPEG2000 extension,
and one of another recognized type. -/
def c9MixedDir : FSDir :=
  FSDir.node
    [fitsFile "good.fits",
     { name := "notes.txt", detect := DetectResult.unrecognized, header := [] },
     { name := "bad.jp2", detect := DetectResult.invalidJP2, header := [] },
     { name := "other.jp2", detect := DetectResult.otherType, header := [] }]
    []

/-! ## Helper lemmas -/

theorem waveEq_refl (x : Option ℚ) : waveEq x x = true := by
  cases x <;> simp [waveEq]

theorem fhEq_refl (x : FitsHeaderEntry) : fhEq x x = true := by
  simp [fhEq]

theorem tagEq_refl (x : Tag) : tagEq x x = true := by
  simp [tagEq]

theorem listEqBy_fh_refl (l : List FitsHeaderEntry) : listEqBy fhEq l l = true := by
  induction l with
  | nil => rfl
  | cons x xs ih => simp [listEqBy, fhEq_refl, ih]

theorem listEqBy_tag_refl (l : List Tag) : listEqBy tagEq l l = true := by
  induction l with
  | nil => rfl
  | cons x xs ih => simp [listEqBy, tagEq_refl, ih]

theorem pyround10_close (q : ℚ) : |q - pyround10 q| ≤ 1 / (2 * 10 ^ 10) := by
  unfold pyround10
  split
  · have h1 : ((⌊q * 10 ^ 10 + 1 / 2⌋ : ℤ) : ℚ) ≤ q * 10 ^ 10 + 1 / 2 :=
      Int.floor_le _
    have h2 : q * 10 ^ 10 + 1 / 2 - 1 < ((⌊q * 10 ^ 10 + 1 / 2⌋ : ℤ) : ℚ) :=
      Int.sub_one_lt_floor _
    rw [abs_le]
    constructor <;> [linarith; linarith]
  · have h1 : ((⌊-q * 10 ^ 10 + 1 / 2⌋ : ℤ) : ℚ) ≤ -q * 10 ^ 10 + 1 / 2 :=
      Int.floor_le _
    have h2 : -q * 10 ^ 10 + 1 / 2 - 1 < ((⌊-q * 10 ^ 10 + 1 / 2⌋ : ℤ) : ℚ) :=
      Int.sub_one_lt_floor _
    rw [abs_le]
    constructor <;> [linarith; linarith]

theorem pyround10_dist (a b : ℚ) (h : pyround10 a = pyround10 b) :
    |a - b| ≤ 1 / 10 ^ 10 := by
  have ha := pyround10_close a
  have hb := pyround10_close b
  have tri : |a - b| ≤ |a - pyround10 a| + |pyround10 a - b| := abs_sub_le a _ b
  rw [h, abs_sub_comm (pyround10 b) b] at tri
  rw [h] at ha
  linarith

/-! ## C1 -/

/-- C1: for Entries with an unset id on either side (in particular both
unset) whose remaining fields are identical, `__eq__` returns true — the
unset id acts as a wildcard, equality of the other fields suffices. -/
theorem c1_unset_id_wildcard (a b : DatabaseEntry)
    (hid : a.id = none ∨ b.id = none)
    (hso : a.source = b.source) (hpr : a.provider = b.provider)
    (hph : a.physobs = b.physobs) (hfi : a.fileid = b.fileid)
    (hts : a.observation_time_start = b.observation_time_start)
    (hte : a.observation_time_end = b.observation_time_end)
    (hin : a.instrument = b.instrument) (hsz : a.size = b.size)
    (hwm : a.wavemin = b.wavemin) (hwx : a.wavemax = b.wavemax)
    (hpa : a.path = b.path) (hdl : a.download_time = b.download_time)
    (hst : a.starred = b.starred)
    (hfh : a.fits_header_entries = b.fits_header_entries)
    (htg : a.tags = b.tags) :
    entryEq a b = true := by
  rcases hid with h | h <;>
    simp [entryEq, h, hso, hpr, hph, hfi, hts, hte, hin, hsz, hwm, hwx, hpa,
      hdl, hst, hfh, htg, waveEq_refl, listEqBy_fh_refl, listEqBy_tag_refl]

theorem c1_unset_id_wildcard_witness : entryEq emptyEntry emptyEntry = true :=
  c1_unset_id_wildcard emptyEntry emptyEntry (Or.inl rfl)
    rfl rfl rfl rfl rfl rfl rfl rfl rfl rfl rfl rfl rfl rfl rfl

/-! ## C2 -/

/-- C2 (amended): for Entries identical except for their set wavemin values,
equality holds whenever the two wavemin values round to the same multiple of
`10⁻¹⁰`, and fails whenever they differ by more than `10⁻¹⁰`.  (The original
"differ by less than `10⁻¹¹` implies equal" fails for values straddling a
rounding boundary, see the counterexample.) -/
theorem c2_wavemin_rounding (a b : DatabaseEntry) (wa wb : ℚ)
    (hwa : a.wavemin = some wa) (hwb : b.wavemin = some wb)
    (hid : a.id = b.id)
    (hso : a.source = b.source) (hpr : a.provider = b.provider)
    (hph : a.physobs = b.physobs) (hfi : a.fileid = b.fileid)
    (hts : a.observation_time_start = b.observation_time_start)
    (hte : a.observation_time_end = b.observation_time_end)
    (hin : a.instrument = b.instrument) (hsz : a.size = b.size)
    (hwx : a.wavemax = b.wavemax)
    (hpa : a.path = b.path) (hdl : a.download_time = b.download_time)
    (hst : a.starred = b.starred)
    (hfh : a.fits_header_entries = b.fits_header_entries)
    (htg : a.tags = b.tags) :
    (pyround10 wa = pyround10 wb → entryEq a b = true) ∧
    (1 / 10 ^ 10 < |wa - wb| → entryEq a b = false) := by
  constructor
  · intro hr
    have hwmin : waveEq a.wavemin b.wavemin = true := by
      rw [hwa, hwb]
      simp [waveEq, hr]
    simp [entryEq, hid, hso, hpr, hph, hfi, hts, hte, hin, hsz, hwx, hpa,
      hdl, hst, hfh, htg, waveEq_refl, listEqBy_fh_refl, listEqBy_tag_refl,
      hwmin]
  · intro hgt
    have hw : waveEq a.wavemin b.wavemin = false := by
      rw [hwa, hwb]
      simp only [waveEq, decide_eq_false_iff_not]
      intro hr
      have := pyround10_dist wa wb hr
      linarith
    simp [entryEq, hw]

theorem c2_wavemin_rounding_witness :
    entryEq { emptyEntry with wavemin := some 0 }
      { emptyEntry with wavemin := some 0 } = true ∧
    entryEq { emptyEntry with wavemin := some 0 }
      { emptyEntry with wavemin := some 1 } = false := by
  constructor
  · exact (c2_wavemin_rounding { emptyEntry with wavemin := some 0 }
      { emptyEntry with wavemin := some 0 } 0 0 rfl rfl rfl rfl rfl rfl rfl
      rfl rfl rfl rfl rfl rfl rfl rfl rfl rfl).1 rfl
  · refine (c2_wavemin_rounding { emptyEntry with wavemin := some 0 }
      { emptyEntry with wavemin := some 1 } 0 1 rfl rfl rfl rfl rfl rfl rfl
      rfl rfl rfl rfl rfl rfl rfl rfl rfl rfl).2 ?_
    rw [zero_sub, abs_neg, abs_one]
    norm_num

/-- C2 counterexample: the wavemin values `4.9e-11` and `5.1e-11` differ by
`2e-12 < 1e-11`, yet the Entries compare unequal, because the two values
straddle the rounding boundary `5e-11` and round to `0` and `1e-10`. -/
theorem c2_counterexample :
    |(49 / 10 ^ 12 : ℚ) - 51 / 10 ^ 12| < 1 / 10 ^ 11 ∧
    entryEq { emptyEntry with wavemin := some (49 / 10 ^ 12 : ℚ) }
      { emptyEntry with wavemin := some (51 / 10 ^ 12 : ℚ) } = false := by
  constructor
  · have hneg : (49 / 10 ^ 12 : ℚ) - 51 / 10 ^ 12 < 0 := by norm_num
    rw [abs_of_neg hneg]
    norm_num
  · have h49 : pyround10 (49 / 10 ^ 12 : ℚ) = 0 := by
      unfold pyround10
      rw [if_pos (by norm_num)]
      have hf : (⌊(49 / 10 ^ 12 : ℚ) * 10 ^ 10 + 1 / 2⌋ : ℤ) = 0 := by
        rw [Int.floor_eq_iff]
        norm_num
      rw [hf]
      norm_num
    have h51 : pyround10 (51 / 10 ^ 12 : ℚ) = 1 / 10 ^ 10 := by
      unfold pyround10
      rw [if_pos (by norm_num)]
      have hf : (⌊(51 / 10 ^ 12 : ℚ) * 10 ^ 10 + 1 / 2⌋ : ℤ) = 1 := by
        rw [Int.floor_eq_iff]
        norm_num
      rw [hf]
      norm_num
    have hw : waveEq (some (49 / 10 ^ 12 : ℚ)) (some (51 / 10 ^ 12 : ℚ)) = false := by
      simp only [waveEq, decide_eq_false_iff_not, h49, h51]
      norm_num
    simp [entryEq, hw]

/-! ## C10 -/

/-- C10: Entry equality is not transitive — an entry with unset id equals
entries with ids 1 and 2 while those differ; the same holds for
`FitsHeaderEntry` equality, which uses the same id-wildcard rule. -/
theorem c10_eq_not_transitive :
    entryEq { emptyEntry with id := some 1 } emptyEntry = true ∧
    entryEq emptyEntry { emptyEntry with id := some 2 } = true ∧
    entryEq { emptyEntry with id := some 1 }
      { emptyEntry with id := some 2 } = false ∧
    fhEq { id := some 1, key := "k", value := HVal.str "v" }
      { id := none, key := "k", value := HVal.str "v" } = true ∧
    fhEq { id := none, key := "k", value := HVal.str "v" }
      { id := some 2, key := "k", value := HVal.str "v" } = true ∧
    fhEq { id := some 1, key := "k", value := HVal.str "v" }
      { id := some 2, key := "k", value := HVal.str "v" } = false := by
  decide

/-! ## Scan-loop lemmas for `add_fits_header_entries_from_file` -/

theorem scanStep_not_wavelnth (f : ℚ) (e : DatabaseEntry)
    (he : FitsHeaderEntry) (hk : he.key ≠ "WAVELNTH") :
    ∃ e2, scanStep f e he = Except.ok e2 ∧
      e2.wavemin = e.wavemin ∧ e2.wavemax = e.wavemax := by
  unfold scanStep
  by_cases h1 : he.key = "INSTRUME"
  · rw [if_pos h1]; exact ⟨_, rfl, rfl, rfl⟩
  · rw [if_neg h1, if_neg hk]
    by_cases h3 : he.key = "DATE-END" ∨ he.key = "DATE_END"
    · rw [if_pos h3]; exact ⟨_, rfl, rfl, rfl⟩
    · rw [if_neg h3]
      by_cases h4 : he.key = "DATE-OBS" ∨ he.key = "DATE_OBS"
      · rw [if_pos h4]; exact ⟨_, rfl, rfl, rfl⟩
      · rw [if_neg h4]; exact ⟨e, rfl, rfl, rfl⟩

theorem scanStep_wavelnth (f q : ℚ) (e : DatabaseEntry)
    (he : FitsHeaderEntry) (hk : he.key = "WAVELNTH")
    (hv : he.value = HVal.num q) :
    scanStep f e he =
      Except.ok { e with wavemin := some (unitToNm f q),
                         wavemax := some (unitToNm f q) } := by
  unfold scanStep
  rw [if_neg (by simp [hk]), if_pos hk, hv]

theorem scanStep_waveinv (f : ℚ) (e e2 : DatabaseEntry)
    (he : FitsHeaderEntry) (hee : e.wavemin = e.wavemax)
    (h : scanStep f e he = Except.ok e2) : e2.wavemin = e2.wavemax := by
  unfold scanStep at h
  by_cases h1 : he.key = "INSTRUME"
  · rw [if_pos h1] at h
    simp only [Except.ok.injEq] at h
    subst h; exact hee
  · rw [if_neg h1] at h
    by_cases h2 : he.key = "WAVELNTH"
    · rw [if_pos h2] at h
      cases hv : he.value with
      | num q =>
        rw [hv] at h
        simp only [Except.ok.injEq] at h
        subst h; rfl
      | str s => rw [hv] at h; exact absurd h (by simp)
      | bool b => rw [hv] at h; exact absurd h (by simp)
    · rw [if_neg h2] at h
      by_cases h3 : he.key = "DATE-END" ∨ he.key = "DATE_END"
      · rw [if_pos h3] at h
        simp only [Except.ok.injEq] at h
        subst h; exact hee
      · rw [if_neg h3] at h
        by_cases h4 : he.key = "DATE-OBS" ∨ he.key = "DATE_OBS"
        · rw [if_pos h4] at h
          simp only [Except.ok.injEq] at h
          subst h; exact hee
        · rw [if_neg h4] at h
          simp only [Except.ok.injEq] at h
          subst h; exact hee

theorem scan_no_wavelnth (f : ℚ) :
    ∀ (l : List FitsHeaderEntry),
      l.filter (fun he => he.key == "WAVELNTH") = [] →
      ∀ e : DatabaseEntry, ∃ e2, scanEntries f e l = Except.ok e2 ∧
        e2.wavemin = e.wavemin ∧ e2.wavemax = e.wavemax := by
  intro l
  induction l with
  | nil => intro _ e; exact ⟨e, rfl, rfl, rfl⟩
  | cons he rest ih =>
    intro hl e
    rw [List.filter_cons] at hl
    by_cases hk : he.key = "WAVELNTH"
    · simp [hk] at hl
    · have hkb : (he.key == "WAVELNTH") = false := by simp [hk]
      rw [hkb] at hl
      simp only [Bool.false_eq_true, if_false] at hl
      obtain ⟨e1, hstep, w1, w2⟩ := scanStep_not_wavelnth f e he hk
      obtain ⟨e2, hs, v1, v2⟩ := ih hl e1
      refine ⟨e2, ?_, by rw [v1, w1], by rw [v2, w2]⟩
      simp only [scanEntries, hstep]
      exact hs

theorem scan_single_wavelnth (f q : ℚ) (fh : FitsHeaderEntry)
    (hv : fh.value = HVal.num q) :
    ∀ (l : List FitsHeaderEntry),
      l.filter (fun he => he.key == "WAVELNTH") = [fh] →
      ∀ e : DatabaseEntry, ∃ e2, scanEntries f e l = Except.ok e2 ∧
        e2.wavemin = some (unitToNm f q) ∧ e2.wavemax = some (unitToNm f q) := by
  intro l
  induction l with
  | nil => intro hl; simp at hl
  | cons he rest ih =>
    intro hl e
    rw [List.filter_cons] at hl
    by_cases hk : he.key = "WAVELNTH"
    · have hkb : (he.key == "WAVELNTH") = true := by simp [hk]
      rw [hkb] at hl
      simp only [if_true] at hl
      rw [List.cons_eq_cons] at hl
      obtain ⟨hl1, hl2⟩ := hl
      have hvv : he.value = HVal.num q := by rw [hl1, hv]
      have hstep := scanStep_wavelnth f q e he hk hvv
      obtain ⟨e2, hs, v1, v2⟩ := scan_no_wavelnth f rest hl2
        { e with wavemin := some (unitToNm f q), wavemax := some (unitToNm f q) }
      refine ⟨e2, ?_, by rw [v1], by rw [v2]⟩
      simp only [scanEntries, hstep]
      exact hs
    · have hkb : (he.key == "WAVELNTH") = false := by simp [hk]
      rw [hkb] at hl
      simp only [Bool.false_eq_true, if_false] at hl
      obtain ⟨e1, hstep, w1, w2⟩ := scanStep_not_wavelnth f e he hk
      obtain ⟨e2, hs, v1, v2⟩ := ih hl e1
      refine ⟨e2, ?_, v1, v2⟩
      simp only [scanEntries, hstep]
      exact hs

theorem scan_wavemin_eq_wavemax (f : ℚ) :
    ∀ (l : List FitsHeaderEntry) (e e2 : DatabaseEntry),
      e.wavemin = e.wavemax → scanEntries f e l = Except.ok e2 →
      e2.wavemin = e2.wavemax := by
  intro l
  induction l with
  | nil =>
    intro e e2 hee hs
    simp only [scanEntries, Except.ok.injEq] at hs
    rw [← hs]
    exact hee
  | cons he rest ih =>
    intro e e2 hee hs
    simp only [scanEntries] at hs
    cases hstep : scanStep f e he with
    | error err => rw [hstep] at hs; exact absurd hs (by simp)
    | ok e1 =>
      rw [hstep] at hs
      exact ih _ _ (scanStep_waveinv f e e1 he hee hstep) hs

/-! ## C3 -/

/-- C3: whenever `add_fits_header_entries_from_file` succeeds, `wavemin` and
`wavemax` are equal (the `WAVELNTH` branch always sets both to the same
value); and for a header whose single `WAVELNTH` entry carries numeric value
`q`, with the waveunit determined from the header (or the default) resolving
to conversion factor `f`, both are set to the conversion `f * q` to
nanometres. -/
theorem c3_wavelnth_sets_wavemin_wavemax (src : String)
    (header : List (String × HVal)) (dw : Option String) :
    (∀ e2, addFitsHeaderEntries emptyEntry src header dw = Except.ok e2 →
      e2.wavemin = e2.wavemax) ∧
    (∀ u f q fh, effWaveunit header dw = some u → resolveUnit u = some f →
      (header.map mkFH).filter (fun he => he.key == "WAVELNTH") = [fh] →
      fh.value = HVal.num q →
      ∃ e2, addFitsHeaderEntries emptyEntry src header dw = Except.ok e2 ∧
        e2.wavemin = some (unitToNm f q) ∧ e2.wavemax = some (unitToNm f q)) := by
  constructor
  · intro e2 h
    cases hw : effWaveunit header dw with
    | none =>
      simp only [addFitsHeaderEntries, hw] at h
      exact absurd h (by simp)
    | some w =>
      cases hrw : resolveUnit w with
      | none =>
        simp only [addFitsHeaderEntries, hw, hrw] at h
        exact absurd h (by simp)
      | some f =>
        simp only [addFitsHeaderEntries, hw, hrw] at h
        exact scan_wavemin_eq_wavemax f _ _ _ rfl h
  · intro u f q fh hu hf hl hv
    have h1 : addFitsHeaderEntries emptyEntry src header dw =
        scanEntries f
          { emptyEntry with fits_header_entries := header.map mkFH }
          (header.map mkFH) := by
      simp only [addFitsHeaderEntries, hu, hf]
      simp [emptyEntry]
    rw [h1]
    exact scan_single_wavelnth f q fh hv (header.map mkFH) hl _

theorem c3_wavelnth_sets_wavemin_wavemax_witness :
    ∃ e2, addFitsHeaderEntries emptyEntry "eit.fits"
        [("WAVELNTH", HVal.num 171), ("WAVEUNIT", HVal.str "Angstrom")] none =
        Except.ok e2 ∧
      e2.wavemin = some (171 / 10 : ℚ) ∧ e2.wavemax = some (171 / 10 : ℚ) := by
  obtain ⟨e2, h1, h2, h3⟩ :=
    (c3_wavelnth_sets_wavemin_wavemax "eit.fits"
      [("WAVELNTH", HVal.num 171), ("WAVEUNIT", HVal.str "Angstrom")] none).2
      "Angstrom" (1 / 10) 171
      { id := none, key := "WAVELNTH", value := HVal.num 171 }
      rfl rfl rfl rfl
  have hc : unitToNm (1 / 10 : ℚ) 171 = 171 / 10 := by
    norm_num [unitToNm]
  rw [hc] at h2 h3
  exact ⟨e2, h1, h2, h3⟩

/-! ## C4 -/

/-- C4: when the waveunit cannot be determined and no default is supplied,
`add_fits_header_entries_from_file` fails with `WaveunitNotFoundError`; at
that moment (and at a `WaveunitNotConvertibleError` failure) the entry is
already partially populated: `fits_header_entries` holds one entry per
header pair in source order, while `instrument`, `wavemin`, `wavemax` and
the observation-time fields remain unset. -/
theorem c4_failure_partial_population (src : String)
    (header : List (String × HVal)) :
    (extractWaveunit header = none →
      ∃ ep, addFitsHeaderEntries emptyEntry src header none =
          Except.error (DBErr.waveunitNotFound src, ep) ∧
        ep.fits_header_entries = header.map mkFH ∧
        ep.instrument = none ∧ ep.wavemin = none ∧ ep.wavemax = none ∧
        ep.observation_time_start = none ∧ ep.observation_time_end = none) ∧
    (∀ u dw, effWaveunit header dw = some u → resolveUnit u = none →
      ∃ ep, addFitsHeaderEntries emptyEntry src header dw =
          Except.error (DBErr.waveunitNotConvertible u, ep) ∧
        ep.fits_header_entries = header.map mkFH ∧
        ep.instrument = none ∧ ep.wavemin = none ∧ ep.wavemax = none ∧
        ep.observation_time_start = none ∧ ep.observation_time_end = none) := by
  constructor
  · intro hx
    have hu : effWaveunit header none = none := by simp [effWaveunit, hx]
    refine ⟨{ emptyEntry with fits_header_entries := header.map mkFH },
      ?_, rfl, rfl, rfl, rfl, rfl, rfl⟩
    simp only [addFitsHeaderEntries, hu]
    simp [emptyEntry]
  · intro u dw hu hr
    refine ⟨{ emptyEntry with fits_header_entries := header.map mkFH },
      ?_, rfl, rfl, rfl, rfl, rfl, rfl⟩
    simp only [addFitsHeaderEntries, hu, hr]
    simp [emptyEntry]

theorem c4_failure_partial_population_witness :
    (∃ ep, addFitsHeaderEntries emptyEntry "f1.fits"
        [("SIMPLE", HVal.bool true), ("BITPIX", HVal.num 8)] none =
        Except.error (DBErr.waveunitNotFound "f1.fits", ep) ∧
      ep.fits_header_entries =
        [("SIMPLE", HVal.bool true), ("BITPIX", HVal.num 8)].map mkFH ∧
      ep.instrument = none ∧ ep.wavemin = none ∧ ep.wavemax = none ∧
      ep.observation_time_start = none ∧ ep.observation_time_end = none) ∧
    (∃ ep, addFitsHeaderEntries emptyEntry "f2.fits"
        [("WAVEUNIT", HVal.str "nonsense")] none =
        Except.error (DBErr.waveunitNotConvertible "nonsense", ep) ∧
      ep.fits_header_entries = [("WAVEUNIT", HVal.str "nonsense")].map mkFH ∧
      ep.instrument = none ∧ ep.wavemin = none ∧ ep.wavemax = none ∧
      ep.observation_time_start = none ∧ ep.observation_time_end = none) :=
  ⟨(c4_failure_partial_population "f1.fits" _).1 rfl,
   (c4_failure_partial_population "f2.fits" _).2 "nonsense" none rfl rfl⟩

/-! ## C5 -/

/-- C5 (amended): `display_entries` fails with the empty-entries `TypeError`
whenever `entries` is empty (whatever `columns` is), and with the
empty-columns `TypeError` whenever `columns` is empty and `entries` is
non-empty.  (When both are empty the entries check wins, so the original
"EmptyColumnsError whenever columns is empty" fails at that corner, see the
counterexample.) -/
theorem c5_empty_validation (entries : List DatabaseEntry)
    (columns : List String) :
    (entries = [] →
      display_entries entries columns = Except.error emptyEntriesError) ∧
    (entries ≠ [] → columns = [] →
      display_entries entries columns = Except.error emptyColumnsError) := by
  constructor
  · rintro rfl
    simp [display_entries, buildRows]
  · intro hne hc
    subst hc
    cases entries with
    | nil => exact absurd rfl hne
    | cons e rest => rfl

theorem c5_empty_validation_witness :
    display_entries [] ["source"] = Except.error emptyEntriesError ∧
    display_entries [emptyEntry] [] = Except.error emptyColumnsError :=
  ⟨(c5_empty_validation [] ["source"]).1 rfl,
   (c5_empty_validation [emptyEntry] []).2 (by simp) rfl⟩

/-- C5 counterexample: with both arguments empty, `display_entries` raises
the empty-entries error, not the empty-columns error, so "fails with
`EmptyColumnsError` whenever `columns` is empty" is false at
`([], [])`. -/
theorem c5_counterexample :
    display_entries [] [] = Except.error emptyEntriesError ∧
    emptyEntriesError ≠ emptyColumnsError := by
  refine ⟨rfl, ?_⟩
  simp [emptyEntriesError, emptyColumnsError]

/-! ## C6 -/

/-- C6 (amended): when the waveunit label of a query result block (or the
supplied default) cannot be resolved, `from_query_result_block` propagates
the external resolver's raw `ValueError` unchanged — there is no try/except
in this method, so the failure is **not** wrapped as
`WaveunitNotConvertibleError`. -/
theorem c6_unresolvable_label (blk : QueryResultBlock) (dw : Option String)
    (label : String) (hl : effWaveunitQR blk dw = some label)
    (hr : resolveUnit label = none) :
    fromQueryResultBlock blk dw = Except.error (DBErr.valueErr label) := by
  simp only [fromQueryResultBlock, hl, hr]

theorem c6_unresolvable_label_witness :
    fromQueryResultBlock
      { time_start := "20020101000000", time_end := "20020102000000",
        wave := { waveunit := none, wavemin := none, wavemax := none },
        source := none, provider := none, fileid := none,
        instrument := none, physobs := none, size := none }
      (some "bogus") =
      Except.error (DBErr.valueErr "bogus") :=
  c6_unresolvable_label _ (some "bogus") "bogus" rfl rfl

/-- C6 counterexample: a block whose waveunit label is `'nonsense'` makes
`from_query_result_block` fail with the raw resolver error, which is not
the `WaveunitNotConvertible` error kind the claim names. -/
theorem c6_counterexample :
    fromQueryResultBlock
      { time_start := "20010101000000", time_end := "20010102000000",
        wave := { waveunit := some "nonsense", wavemin := some 171,
                  wavemax := some 171 },
        source := some "SOHO", provider := some "SDAC",
        fileid := some "/archive/f1", instrument := some "EIT",
        physobs := none, size := some 2059 } none =
      Except.error (DBErr.valueErr "nonsense") ∧
    DBErr.valueErr "nonsense" ≠ DBErr.waveunitNotConvertible "nonsense" := by
  refine ⟨rfl, ?_⟩
  simp

/-! ## C7 -/

/-- C7 (amended): `from_query_result_block` resolves the unit *before*
looking at the wavelength values, so a block with both wavelengths unset
and no determinable waveunit still fails with `WaveunitNotFoundError`;
when the unit does resolve, unset `wavemin` / `wavemax` stay unset with no
conversion attempted, each handled independently. -/
theorem c7_unit_resolved_before_values (blk : QueryResultBlock)
    (dw : Option String) (hmin : blk.wave.wavemin = none)
    (hmax : blk.wave.wavemax = none) :
    (blk.wave.waveunit = none → dw = none →
      fromQueryResultBlock blk dw =
        Except.error (DBErr.waveunitNotFound (describeBlock blk))) ∧
    (∀ label f, effWaveunitQR blk dw = some label →
      resolveUnit label = some f →
      ∃ e, fromQueryResultBlock blk dw = Except.ok e ∧
        e.wavemin = none ∧ e.wavemax = none) := by
  constructor
  · intro h1 h2
    have hu : effWaveunitQR blk dw = none := by simp [effWaveunitQR, h1, h2]
    simp only [fromQueryResultBlock, hu]
  · intro label f hl hf
    refine ⟨{ emptyEntry with
        source := blk.source, provider := blk.provider,
        physobs := blk.physobs, fileid := blk.fileid,
        observation_time_start :=
          some (timestamp2datetime "%Y%m%d%H%M%S" blk.time_start),
        observation_time_end :=
          some (timestamp2datetime "%Y%m%d%H%M%S" blk.time_end),
        instrument := blk.instrument.map HVal.str, size := blk.size,
        wavemin := blk.wave.wavemin.map (unitToNm f),
        wavemax := blk.wave.wavemax.map (unitToNm f) }, ?_, ?_, ?_⟩
    · simp only [fromQueryResultBlock, hl, hf]
    · simp [hmin]
    · simp [hmax]

theorem c7_unit_resolved_before_values_witness :
    fromQueryResultBlock
      { time_start := "20010101000000", time_end := "20010102000000",
        wave := { waveunit := none, wavemin := none, wavemax := none },
        source := none, provider := none, fileid := some "blkfile",
        instrument := none, physobs := none, size := none } none =
      Except.error (DBErr.waveunitNotFound "blkfile") ∧
    (∃ e, fromQueryResultBlock
      { time_start := "20010101000000", time_end := "20010102000000",
        wave := { waveunit := some "nm", wavemin := none, wavemax := none },
        source := none, provider := none, fileid := none,
        instrument := none, physobs := none, size := none } none =
      Except.ok e ∧ e.wavemin = none ∧ e.wavemax = none) :=
  ⟨(c7_unit_resolved_before_values _ none rfl rfl).1 rfl rfl,
   (c7_unit_resolved_before_values _ none rfl rfl).2 "nm" 1 rfl rfl⟩

/-- C7 counterexample: a block with `wave.wavemin`, `wave.wavemax` and
`wave.waveunit` all unset and no default waveunit makes
`from_query_result_block` raise `WaveunitNotFoundError` instead of
returning an Entry with unset wavelengths. -/
theorem c7_counterexample :
    fromQueryResultBlock
      { time_start := "20010101000000", time_end := "20010102000000",
        wave := { waveunit := none, wavemin := none, wavemax := none },
        source := none, provider := none, fileid := none,
        instrument := none, physobs := none, size := none } none =
      Except.error (DBErr.waveunitNotFound "") := rfl

/-! ## C8 -/

/-- C8: `entries_from_dir` with `recursive = false` processes only the
first `os.walk` triple — the given directory's top level — while
`recursive = true` processes the full subtree; over a directory with one
FITS file at the top level and one in a subdirectory, the non-recursive
call yields exactly one `(entry, path)` pair and the recursive call yields
exactly two. -/
theorem c8_recursive_scope :
    (∀ root d m dw, entriesFromDir root d false m dw =
        processTriples m dw [(root, topFiles d)]) ∧
    (∀ root d m dw, entriesFromDir root d true m dw =
        processTriples m dw (walkFS root d)) ∧
    (entriesFromDir "fitsdir" c8SampleDir false (fun _ => true) none).map
        List.length = Except.ok 1 ∧
    (entriesFromDir "fitsdir" c8SampleDir true (fun _ => true) none).map
        List.length = Except.ok 2 := by
  refine ⟨?_, ?_, ?_, ?_⟩
  · intro root d m dw
    cases d with
    | node files subs => simp [entriesFromDir, walkFS, topFiles]
  · intro root d m dw
    rfl
  · rfl
  · rfl

/-! ## C9 -/

/-- C9: classifier failure signals during a directory scan are never
propagated — processing a candidate list equals processing only the files
the classifier marks FITS, and over the mixed sample directory exactly the
FITS-derived pair is yielded. -/
theorem c9_classifier_failures_swallowed :
    (∀ dw (files : List (String × FileDesc)),
      processFiles dw files =
        processFiles dw (files.filter (fun p => keptByClassifier p.2))) ∧
    (entriesFromDir "dir" c9MixedDir false (fun _ => true) none).map
        (fun l => l.map Prod.snd) = Except.ok ["dir/good.fits"] := by
  constructor
  · intro dw files
    induction files with
    | nil => rfl
    | cons p rest ih =>
      obtain ⟨path, f⟩ := p
      cases hd : f.detect <;>
        simp [processFiles, keptByClassifier, hd, ih, List.filter_cons]
  · rfl
